import Mathlib

/-!
Verification development for the coding-assessment web application.

The definitions below are a shallow embedding of the client-side
code-execution-and-grading workflow of the repository:
`CodeExecutionEngine` (`executePython` / `executeJava` / `executeSQL` /
`executeCode`), the review builder (`buildAssessmentReview`,
`computeAvgExecMs`), the finalization step
(`cleanupSubmissionsAndPersistScore`), the local session cache
(`saveToCache` / `loadFromCache` and the cache-restore effect), the
submit/run guards (`handleSubmitSolution`, `handleRunCode`) and the
student-dashboard card computation (`fetchDashboardData`).

Effectful JavaScript is modelled by explicit state passing: the outcome of
each awaited network / SQL-engine call is an explicit parameter (a function
from the test-case index to an outcome), Firestore is a `FirestoreState`
record transformed by pure functions, and `localStorage` is a map from keys
to typed payloads (the JSON serialization round trip of the cache payload is
treated as the identity).  JavaScript numbers that the code only ever holds
as integers are modelled as `Nat` / `Int`; `Math.round` applied to an exact
nonnegative ratio `a / b` is modelled by `jsRoundDiv a b = ⌊a/b + 1/2⌋`.
-/

set_option autoImplicit false

namespace CodingAssessment

/-! ### JavaScript string and number helpers -/

/-- Whitespace characters stripped by JavaScript `String.prototype.trim`
(the ASCII part of the WhiteSpace/LineTerminator productions, plus NBSP). -/
def isJsWhitespace (c : Char) : Bool :=
  c = ' ' || c = '\t' || c = '\n' || c = '\r' ||
  c = '\x0b' || c = '\x0c' || c = ' '

/-- Strip leading and trailing whitespace from a list of characters. -/
def trimChars (l : List Char) : List Char :=
  List.rdropWhile isJsWhitespace (List.dropWhile isJsWhitespace l)

/-- JavaScript `String.prototype.trim`. -/
def jsTrim (s : String) : String :=
  String.mk (trimChars s.data)

/-- JavaScript `String.prototype.toLowerCase` (ASCII case mapping, which
covers every string the workflow lowercases). -/
def jsToLower (s : String) : String :=
  String.mk (s.data.map Char.toLower)

/-- JavaScript `a || b` for a possibly-absent string `a`: the fallback `b` is
used when `a` is `undefined`/`null` (here `none`) or the empty string (the
only falsy string). -/
def jsOrString (a : Option String) (b : String) : String :=
  match a with
  | none => b
  | some s => if s = "" then b else s

/-- JavaScript `Math.round (a / b)` for natural `a` and positive natural `b`,
computed on the exact rational: `⌊a/b + 1/2⌋ = (2a + b) / (2b)`. -/
def jsRoundDiv (a b : Nat) : Nat :=
  (2 * a + b) / (2 * b)

/-! ### Execution engine: data model

`CodeExecutionEngine` produces one result record per test case
(part_002 lines 152–348, identical engine in
src/src/pages/CodeEditor/CodeEditor.js). -/

/-- A test case as stored on a `Question` document.  Firestore schemas are
unenforced, so both fields may be absent (`none` models `undefined`). -/
structure TestCase where
  input : Option String
  expectedOutput : Option String
deriving Repr, DecidableEq

/-- One per-test-case result record pushed by the execution engine. -/
structure TestResult where
  input : String
  expected : Option String
  actual : String
  passed : Bool
  executionTime : Nat
  error : Option String
deriving Repr, DecidableEq

/-- Outcome of one awaited Piston API call (`axios.post`): either the promise
rejects (network/API error with a message), or a response arrives carrying
`run.stdout`, `run.stderr`, `run.code` (absent modelled as `none`; the code
substitutes `1`), `compile.stderr` (absent modelled as `""` via `|| ''`) and
the measured elapsed milliseconds. -/
inductive PistonOutcome where
  | apiError (message : String)
  | response (stdout stderr : String) (exitCode : Option Int)
      (compileStderr : String) (elapsedMs : Nat)
deriving Repr, DecidableEq

/-- Outcome of one SQL test-case execution against a fresh AlaSQL database:
either some statement throws (message of the caught exception), or the
submitted query succeeds with a list of result rows, each row given by its
JSON serialization. -/
inductive SqlOutcome where
  | sqlError (message : String)
  | success (rows : List String) (elapsedMs : Nat)
deriving Repr, DecidableEq

/-- `JSON.stringify` of the result-row array combined with the engine's
empty-result guard: `(queryResult && queryResult.length > 0) ?
JSON.stringify(queryResult) : '[]'`. -/
def sqlStringify (rows : List String) : String :=
  if rows.isEmpty then "[]"
  else "[" ++ String.intercalate "," rows ++ "]"

/-! ### Execution engine: per-test-case runners -/

/-- Body of one iteration of `executePython`'s loop
(part_002 lines 158–203). -/
def runPythonOne (t : TestCase) (o : PistonOutcome) : TestResult :=
  match o with
  | .apiError msg =>
      { input := t.input.getD "", expected := t.expectedOutput, actual := "",
        passed := false, executionTime := 0,
        error := some ("API Error: " ++ msg) }
  | .response stdout stderr exitCode _ ms =>
      let codeExit := exitCode.getD 1
      let actual := jsTrim stdout
      let expected := jsTrim (t.expectedOutput.getD "")
      if codeExit = 0 then
        if actual = expected then
          { input := t.input.getD "", expected := t.expectedOutput,
            actual := actual, passed := true, executionTime := ms,
            error := none }
        else
          { input := t.input.getD "", expected := t.expectedOutput,
            actual := actual, passed := false, executionTime := ms,
            error := some ("Expected: \"" ++ expected ++ "\", Got: \"" ++
              actual ++ "\"") }
      else
        { input := t.input.getD "", expected := t.expectedOutput,
          actual := actual, passed := false, executionTime := ms,
          error := some ("Runtime Error: " ++
            (if stderr = "" then "Unknown error" else stderr)) }

/-- Body of one iteration of `executeJava`'s loop (part_002 lines 210–260):
as for Python, except that a nonempty `compile.stderr` takes precedence and
is reported as a compilation error. -/
def runJavaOne (t : TestCase) (o : PistonOutcome) : TestResult :=
  match o with
  | .apiError msg =>
      { input := t.input.getD "", expected := t.expectedOutput, actual := "",
        passed := false, executionTime := 0,
        error := some ("API Error: " ++ msg) }
  | .response stdout stderr exitCode compileStderr ms =>
      let codeExit := exitCode.getD 1
      let actual := jsTrim stdout
      let expected := jsTrim (t.expectedOutput.getD "")
      if compileStderr ≠ "" then
        { input := t.input.getD "", expected := t.expectedOutput,
          actual := actual, passed := false, executionTime := ms,
          error := some ("Compilation Error: " ++ compileStderr) }
      else if codeExit = 0 then
        if actual = expected then
          { input := t.input.getD "", expected := t.expectedOutput,
            actual := actual, passed := true, executionTime := ms,
            error := none }
        else
          { input := t.input.getD "", expected := t.expectedOutput,
            actual := actual, passed := false, executionTime := ms,
            error := some ("Expected: \"" ++ expected ++ "\", Got: \"" ++
              actual ++ "\"") }
      else
        { input := t.input.getD "", expected := t.expectedOutput,
          actual := actual, passed := false, executionTime := ms,
          error := some ("Runtime Error: " ++
            (if stderr = "" then "Unknown error" else stderr)) }

/-- Body of one iteration of `executeSQL`'s loop (part_002 lines 276–314).
The recorded `actual` is the untrimmed JSON string; `passed` compares the
trimmed expected output with the trimmed serialization. -/
def runSqlOne (t : TestCase) (o : SqlOutcome) : TestResult :=
  match o with
  | .sqlError msg =>
      { input := t.input.getD "", expected := t.expectedOutput, actual := "",
        passed := false, executionTime := 0,
        error := some ("SQL Error: " ++ msg) }
  | .success rows ms =>
      let actualOutput := sqlStringify rows
      let expected := jsTrim (t.expectedOutput.getD "")
      if expected = jsTrim actualOutput then
        { input := t.input.getD "", expected := t.expectedOutput,
          actual := actualOutput, passed := true, executionTime := ms,
          error := none }
      else
        { input := t.input.getD "", expected := t.expectedOutput,
          actual := actualOutput, passed := false, executionTime := ms,
          error := some ("Expected: \"" ++ expected ++ "\", Got: \"" ++
            actualOutput ++ "\"") }

/-- `for (let i = 0; i < testCases.length; i++)` with a per-index
environment: map `f` over a list together with the running index. -/
def mapIdxFrom {α β : Type} (f : Nat → α → β) : Nat → List α → List β
  | _, [] => []
  | i, a :: l => f i a :: mapIdxFrom f (i + 1) l

/-- `CodeExecutionEngine.executePython` (part_002 lines 156–206): the code
string is sent to the API; the `i`-th awaited call yields `env i`. -/
def executePython (code : String) (tcs : List TestCase)
    (env : Nat → PistonOutcome) : List TestResult :=
  let _ := code
  mapIdxFrom (fun i t => runPythonOne t (env i)) 0 tcs

/-- `CodeExecutionEngine.executeJava` (part_002 lines 208–263). -/
def executeJava (code : String) (tcs : List TestCase)
    (env : Nat → PistonOutcome) : List TestResult :=
  let _ := code
  mapIdxFrom (fun i t => runJavaOne t (env i)) 0 tcs

/-- Environment for `executeSQL`: the outer `try` of the function can only
fail outside the per-test-case `try` blocks (`engineFailure`), in which case
every test case is mapped to an `SQL Engine Error` result; otherwise the
`i`-th test case's fresh-database run yields `perTest i`. -/
structure SqlEnv where
  engineFailure : Option String
  perTest : Nat → SqlOutcome

/-- `CodeExecutionEngine.executeSQL` (part_002 lines 272–327). -/
def executeSQL (sqlQuery : String) (tcs : List TestCase) (env : SqlEnv) :
    List TestResult :=
  let _ := sqlQuery
  match env.engineFailure with
  | some msg =>
      tcs.map fun t =>
        { input := t.input.getD "", expected := t.expectedOutput,
          actual := "", passed := false, executionTime := 0,
          error := some ("SQL Engine Error: " ++ msg) }
  | none => mapIdxFrom (fun i t => runSqlOne t (env.perTest i)) 0 tcs

/-! ### Execution engine: aggregation (`executeCode`) -/

/-- The graded-run object returned by `executeCode`
(part_002 lines 340–346). -/
structure ExecutionSummary where
  testCases : List TestResult
  score : Nat
  totalTests : Nat
  passedTests : Nat
  status : String
deriving Repr, DecidableEq

/-- The aggregation tail of `executeCode` (part_002 lines 337–346). -/
def aggregateResults (results : List TestResult) : ExecutionSummary :=
  let passedTests := (results.filter (·.passed)).length
  let totalTests := results.length
  let score := if totalTests > 0 then jsRoundDiv (100 * passedTests) totalTests else 0
  { testCases := results, score := score, totalTests := totalTests,
    passedTests := passedTests,
    status := if passedTests = totalTests then "accepted" else "wrong_answer" }

/-- Outcomes of all awaited calls a single `executeCode` invocation can make,
one family per backend. -/
structure ExecEnv where
  piston : Nat → PistonOutcome
  javaPiston : Nat → PistonOutcome
  sql : SqlEnv

/-- `CodeExecutionEngine.executeCode` (part_002 lines 329–348): dispatch on
`language.toLowerCase()`, throwing (`Except.error`) on an unsupported
language. -/
def executeCode (code language : String) (tcs : List TestCase)
    (env : ExecEnv) : Except String ExecutionSummary :=
  let l := jsToLower language
  if l = "python" then .ok (aggregateResults (executePython code tcs env.piston))
  else if l = "java" then .ok (aggregateResults (executeJava code tcs env.javaPiston))
  else if l = "sql" then .ok (aggregateResults (executeSQL code tcs env.sql))
  else .error ("Unsupported language: " ++ language)

/-! ### Review builder (part_002 lines 687–714) -/

/-- A question document (only the fields the grading workflow reads). -/
structure Question where
  id : String
  title : Option String
  language : Option String
  starterCode : Option String
  testCases : Option (List TestCase)
deriving Repr, DecidableEq

/-- A submission record (`subData` in `handleSubmitSolution`, or a
`submissions` document read back from Firestore; fields may be absent). -/
structure SubmissionRecord where
  questionId : String
  status : Option String
  testResults : Option ExecutionSummary
  score : Option Nat
  passedTests : Option Nat
  totalTests : Option Nat
  testCasesResults : Option (List TestResult)
  timeSpent : Option Nat
  code : Option String
deriving Repr, DecidableEq

/-- `q.id === latestSubForCurrent?.questionId ? latestSubForCurrent :
submissions[q.id]` (part_002 line 692); when `latest` is absent the
comparison with `undefined` is false. -/
def resolveSub (latest : Option SubmissionRecord)
    (submissions : String → Option SubmissionRecord) (qid : String) :
    Option SubmissionRecord :=
  match latest with
  | some l => if qid = l.questionId then some l else submissions qid
  | none => submissions qid

/-- `(sub?.status || sub?.testResults?.status || '').toLowerCase()`. -/
def resolvedStatus (sub : Option SubmissionRecord) : String :=
  jsToLower (jsOrString (sub.bind (·.status))
    (jsOrString ((sub.bind (·.testResults)).map (·.status)) ""))

/-- `sub?.passedTests ?? sub?.testResults?.passedTests ?? 0`. -/
def resolvedPassedTests (sub : Option SubmissionRecord) : Nat :=
  ((sub.bind (·.passedTests)) <|>
    ((sub.bind (·.testResults)).map (·.passedTests))).getD 0

/-- `sub?.totalTests ?? sub?.testResults?.totalTests ??
(q?.testCases?.length ?? 0)`. -/
def resolvedTotalTests (sub : Option SubmissionRecord) (q : Question) : Nat :=
  ((sub.bind (·.totalTests)) <|>
    ((sub.bind (·.testResults)).map (·.totalTests))).getD
      ((q.testCases.map (·.length)).getD 0)

/-- `sub?.testCasesResults || sub?.testResults?.testCases || []` (`||` on
arrays: any array, even an empty one, is truthy). -/
def resolvedTcs (sub : Option SubmissionRecord) : List TestResult :=
  ((sub.bind (·.testCasesResults)) <|>
    ((sub.bind (·.testResults)).map (·.testCases))).getD []

/-- Per-question execution time: `tcs.reduce((acc, t) =>
acc + (t?.executionTime || 0), 0)` (part_002 line 697). -/
def resolvedExecMs (sub : Option SubmissionRecord) : Nat :=
  ((resolvedTcs sub).map (·.executionTime)).sum

/-- `sub?.timeSpent || null`: `0` is falsy and collapses to `null`. -/
def jsOrNullNat (a : Option Nat) : Option Nat :=
  match a with
  | some 0 => none
  | x => x

/-- One entry of `review.items`. -/
structure ReviewItem where
  questionId : String
  title : Option String
  status : String
  passedTests : Nat
  totalTests : Nat
  earnedPoints : Nat
  executionTimeMs : Nat
  timeSpent : Option Nat
  code : String
deriving Repr, DecidableEq

/-- The review object built at assessment completion. -/
structure Review where
  totalQuestions : Nat
  completedCount : Nat
  totalScore : Nat
  items : List ReviewItem
deriving Repr, DecidableEq

/-- One element of the `questions.map` in `buildAssessmentReview`
(part_002 lines 691–710). -/
def mkReviewItem (weight : Nat) (latest : Option SubmissionRecord)
    (submissions : String → Option SubmissionRecord) (q : Question) :
    ReviewItem :=
  let sub := resolveSub latest submissions q.id
  let status := resolvedStatus sub
  { questionId := q.id, title := q.title, status := status,
    passedTests := resolvedPassedTests sub,
    totalTests := resolvedTotalTests sub q,
    earnedPoints := if status = "accepted" then weight else 0,
    executionTimeMs := resolvedExecMs sub,
    timeSpent := jsOrNullNat (sub.bind (·.timeSpent)),
    code := jsOrString (sub.bind (·.code)) "" }

/-- `totalQuestions > 0 ? Math.round(100 / totalQuestions) : 0`
(part_002 line 690). -/
def reviewWeight (totalQuestions : Nat) : Nat :=
  if totalQuestions > 0 then jsRoundDiv 100 totalQuestions else 0

/-- `buildAssessmentReview` (part_002 lines 688–714): equal weight
`Math.round(100 / totalQuestions)` per question, earned only on full
acceptance; `totalScore` sums the per-question points. -/
def buildAssessmentReview (questions : List Question)
    (submissions : String → Option SubmissionRecord)
    (latest : Option SubmissionRecord) : Review :=
  let totalQuestions := questions.length
  let weight := reviewWeight totalQuestions
  let items := questions.map (mkReviewItem weight latest submissions)
  { totalQuestions := totalQuestions,
    completedCount := (items.filter (·.status == "accepted")).length,
    totalScore := (items.map (·.earnedPoints)).sum,
    items := items }

/-- `computeAvgExecMs` (part_002 lines 849–856): the considered items are
all items of the review (`filter(() => true)`). -/
def computeAvgExecMs (review : Option Review) : Nat :=
  match review with
  | none => 0
  | some r =>
      if r.items.length = 0 then 0
      else jsRoundDiv ((r.items.map (·.executionTimeMs)).sum) r.items.length

/-- The spec's reading of the average, for refinement comparison
(spec §4.5: "Computes average execution time across all attempted questions
(not just accepted ones)"): the rounded mean of per-question
`executionTimeMs` over the questions that have a submission. -/
def specAvgExecMsAttempted (questions : List Question)
    (submissions : String → Option SubmissionRecord)
    (latest : Option SubmissionRecord) : Nat :=
  let attempted := questions.filter fun q =>
    (resolveSub latest submissions q.id).isSome
  if attempted.length = 0 then 0
  else jsRoundDiv
    ((attempted.map fun q => resolvedExecMs (resolveSub latest submissions q.id)).sum)
    attempted.length

/-! ### Finalization: `cleanupSubmissionsAndPersistScore`
(part_002 lines 859–901) -/

/-- A document of the `submissions` collection (identity plus the query
fields). -/
structure SubmissionDoc where
  docId : String
  userId : String
  assessmentId : String
  questionId : String
deriving Repr, DecidableEq

/-- The compact per-assessment completion entry
`assessmentsCompleted[assessmentId] = {score, avgExecMs, completedAt}`. -/
structure CompletionEntry where
  score : Nat
  avgExecMs : Nat
  completedAt : Nat
deriving Repr, DecidableEq

/-- The slice of Firestore the finalization step touches: the `submissions`
collection and each user's `assessmentsCompleted` map (indexed by userId,
then assessmentId). -/
structure FirestoreState where
  submissions : List SubmissionDoc
  assessmentsCompleted : String → String → Option CompletionEntry

/-- `batch.commit()`: the batched deletes take effect on the store. -/
def commitBatch (batch : List SubmissionDoc) (store : List SubmissionDoc) :
    List SubmissionDoc :=
  store.filter fun d => !(decide (d ∈ batch))

/-- The delete loop of `cleanupSubmissionsAndPersistScore` (part_002 lines
869–879): accumulate deletes, commit every 450th, final commit after the
loop. -/
def runDeleteLoop :
    List SubmissionDoc → List SubmissionDoc → Nat → List SubmissionDoc →
    List SubmissionDoc
  | [], batch, _, store => commitBatch batch store
  | d :: rest, batch, count, store =>
      if (count + 1) % 450 = 0 then
        runDeleteLoop rest [] (count + 1) (commitBatch (d :: batch) store)
      else
        runDeleteLoop rest (d :: batch) (count + 1) store

/-- `cleanupSubmissionsAndPersistScore` (part_002 lines 859–901): delete all
submissions of `(uid, aid)` in batches, then write the user's
`assessmentsCompleted.{aid}` entry.  `review.totalScore ?? totalScore ?? 0`
collapses to `review.totalScore` because both the real review and the
fallback object `{items: [], totalScore: totalScore || 0}` carry a numeric
`totalScore`. -/
def cleanupSubmissionsAndPersistScore (uid aid : String)
    (assessmentReview : Option Review) (totalScore : Option Nat) (now : Nat)
    (st : FirestoreState) : FirestoreState :=
  let doomed := st.submissions.filter fun d =>
    d.userId == uid && d.assessmentId == aid
  let subs := runDeleteLoop doomed [] 0 st.submissions
  let review := match assessmentReview with
    | some r => r
    | none => { totalQuestions := 0, completedCount := 0,
                totalScore := totalScore.getD 0, items := [] }
  let payload : CompletionEntry :=
    { score := review.totalScore, avgExecMs := computeAvgExecMs (some review),
      completedAt := now }
  { submissions := subs,
    assessmentsCompleted := fun u a =>
      if u = uid ∧ a = aid then some payload
      else st.assessmentsCompleted u a }

/-! ### Local session cache (part_002 lines 508–529 and 558–582) -/

/-- The JSON blob stored under `codeEditor_{assessmentId}_{questionId}_{userId}`. -/
structure CachePayload where
  code : String
  timeRemaining : Nat
  sessionStartTime : Nat
  questionId : String
  lastSaved : Nat
  testResults : Option ExecutionSummary
deriving Repr, DecidableEq

/-- `localStorage`, restricted to cache-payload entries. -/
abbrev Storage := String → Option CachePayload

/-- `getCacheKey` (part_002 line 508). -/
def cacheKey (aId qId uId : String) : String :=
  "codeEditor_" ++ aId ++ "_" ++ qId ++ "_" ++ uId

/-- The in-memory editor session state the cache functions read. -/
structure EditorState where
  code : String
  timeRemaining : Nat
  sessionStartTime : Nat
  questionId : String
  testResults : Option ExecutionSummary
  currentQuestion : Option Question
deriving Repr, DecidableEq

/-- `saveToCache` (part_002 lines 513–517): a no-op unless both the cache
key and the current question are set; otherwise writes the payload with
`lastSaved = Date.now()`. -/
def saveToCache (st : EditorState) (key : Option String) (now : Nat)
    (ls : Storage) : Storage :=
  match key, st.currentQuestion with
  | some k, some _ => fun j =>
      if j = k then
        some { code := st.code, timeRemaining := st.timeRemaining,
               sessionStartTime := st.sessionStartTime,
               questionId := st.questionId, lastSaved := now,
               testResults := st.testResults }
      else ls j
  | _, _ => ls

/-- `24 * 60 * 60 * 1000`. -/
def maxCacheAgeMs : Nat := 24 * 60 * 60 * 1000

/-- `loadFromCache` (part_002 lines 519–529): returns the loaded payload
(if any) and the possibly-updated storage (an entry strictly older than
24 hours is removed). -/
def loadFromCache (key : Option String) (now : Nat) (ls : Storage) :
    Option CachePayload × Storage :=
  match key with
  | none => (none, ls)
  | some k =>
      match ls k with
      | none => (none, ls)
      | some c =>
          if now - c.lastSaved > maxCacheAgeMs then
            (none, fun j => if j = k then none else ls j)
          else (some c, ls)

/-- `getDefaultCode` (part_002 lines 584–594). -/
def getDefaultCode (language : String) : String :=
  if language = "python" then "print(\"Hello World\")"
  else if language = "java" then
    "public class Main \x7b\n    public static void main(String[] args) \x7b\n        System.out.println(\"Hello World\");\n    \x7d\n\x7d"
  else if language = "javascript" then "console.log(\"Hello World\");"
  else if language = "sql" then "SELECT \"Hello World\" AS message;"
  else if language = "cpp" then
    "#include <iostream>\nusing namespace std;\n\nint main() \x7b\n    cout << \"Hello World\" << endl;\n    return 0;\n\x7d"
  else if language = "c" then
    "#include <stdio.h>\n\nint main() \x7b\n    printf(\"Hello World\\n\");\n    return 0;\n\x7d"
  else ""

/-- The starter-code fallback `qn.starterCode || getDefaultCode(qn.language)`
(`defaults[undefined] || ''` yields `""` for an absent language). -/
def starterOrDefault (qn : Question) : String :=
  jsOrString qn.starterCode (getDefaultCode (qn.language.getD ""))

/-- The cache-restore effect (part_002 lines 558–582) applied to the
question `qn` found for route segment `qId`: a fresh (non-matching or
absent) cache entry starts from starter code with no results; a matching
entry restores `cached.code || starterCode || default`, the cached timer and
session start, and `cached.testResults || null`. -/
def restoreSession (qn : Question) (qId : String)
    (loaded : Option CachePayload) (st : EditorState) : EditorState :=
  match loaded with
  | some c =>
      if c.questionId = qId then
        { st with
            code := jsOrString (some c.code) (starterOrDefault qn),
            timeRemaining := c.timeRemaining,
            sessionStartTime := c.sessionStartTime,
            testResults := c.testResults }
      else
        { st with code := starterOrDefault qn, testResults := none }
  | none => { st with code := starterOrDefault qn, testResults := none }

/-! ### Run and submit guards (part_002 lines 666–685 and 716–791) -/

/-- What `handleRunCode` decides to do after its guards
(part_002 lines 666–670). -/
inductive RunDecision where
  | rejected (message : String)
  | run (code : String) (language : String) (testCases : List TestCase)
deriving Repr, DecidableEq

/-- The guards of `handleRunCode`: empty/whitespace code, missing language,
and missing/empty test-case list are rejected before any execution. -/
def handleRunCode (code : String) (q : Option Question) : RunDecision :=
  if jsTrim code = "" then .rejected "Please write some code first"
  else
    match q with
    | none => .rejected "Programming language not specified"
    | some qn =>
        match qn.language with
        | none => .rejected "Programming language not specified"
        | some lang =>
            if lang = "" then .rejected "Programming language not specified"
            else
              match qn.testCases with
              | none => .rejected "No test cases available for this question"
              | some tcs =>
                  if tcs.length = 0 then
                    .rejected "No test cases available for this question"
                  else .run (jsTrim code) lang tcs

/-- `subData` as built by `handleSubmitSolution` (part_002 lines 721–736);
`testResults.status || "completed"` and `testResults.score || 0` follow JS
falsy-or. -/
def buildSubmissionData (q : Question) (code : String)
    (tr : ExecutionSummary) (timeSpent : Nat) : SubmissionRecord :=
  { questionId := q.id,
    status := some (jsOrString (some tr.status) "completed"),
    testResults := none,
    score := some tr.score,
    passedTests := some tr.passedTests,
    totalTests := some tr.totalTests,
    testCasesResults := some tr.testCases,
    timeSpent := some timeSpent,
    code := some code }

/-- The writable world `handleSubmitSolution` touches before the
end-of-assessment branch: the `submissions` collection (as the list of
documents added), the local `submissions` React map, and `localStorage`. -/
structure SubmitWorld where
  submissionDocs : List SubmissionRecord
  localSubmissions : String → Option SubmissionRecord
  storage : Storage

/-- `handleSubmitSolution` up to question advancement (part_002 lines
716–748): with no run results it only raises the "Please run your code
first" toast and returns; otherwise it adds the submission document, clears
the cache entry, and updates the local submissions map. -/
def handleSubmitSolution (q : Question) (code : String)
    (testResults : Option ExecutionSummary) (timeSpent : Nat)
    (key : Option String) (w : SubmitWorld) : SubmitWorld :=
  match testResults with
  | none => w
  | some tr =>
      let subData := buildSubmissionData q code tr timeSpent
      { submissionDocs := w.submissionDocs ++ [subData],
        localSubmissions := fun qid =>
          if qid = q.id then some subData else w.localSubmissions qid,
        storage := match key with
          | some k => fun j => if j = k then none else w.storage j
          | none => w.storage }

/-! ### Student dashboard cards
(src/src/pages/Dashboard/Dashboard.js lines 105–130) -/

/-- JS `a || b` for a possibly-absent number: `0` is falsy. -/
def jsOrNat (a : Option Nat) (b : Nat) : Nat :=
  match a with
  | none => b
  | some 0 => b
  | some n => n

/-- An assessment document (fields the card computation reads). -/
structure AssessmentDoc where
  id : String
  chances : Option Nat
deriving Repr, DecidableEq

/-- A fetched submission row (fields the card computation reads). -/
structure DashSubmission where
  assessmentId : String
deriving Repr, DecidableEq

/-- The attempt-related fields of one dashboard assessment card. -/
structure DashCard where
  isCompleted : Bool
  chances : Nat
  chancesUsed : Nat
  chancesRemaining : Int
  canRetake : Bool
deriving Repr, DecidableEq

/-- The per-assessment card computation in `fetchDashboardData`
(Dashboard.js lines 105–130).  For a completed assessment `aSubs` is forced
to `[]`, so `submissionCount` is 0 regardless of lingering rows.  The model
keeps `completedEntry.isSome` for `!!entry && typeof entry.score ===
'number'` since a modelled entry always carries a numeric score. -/
def buildCard (a : AssessmentDoc) (completedEntry : Option CompletionEntry)
    (submissionsData : List DashSubmission) : DashCard :=
  let isCompleted := completedEntry.isSome
  let aSubs := if isCompleted then []
    else submissionsData.filter (·.assessmentId == a.id)
  let chances := jsOrNat a.chances 1
  let submissionCount := aSubs.length
  { isCompleted := isCompleted, chances := chances,
    chancesUsed := submissionCount,
    chancesRemaining := max 0 ((chances : Int) - (submissionCount : Int)),
    canRetake := !isCompleted && decide (submissionCount > 0) }

/-- Whether the dashboard lets the user start (or retake) the assessment:
both the card's `onClick` (line 308) and the Start/Retake button (lines
411–433) invoke `handleStartAssessment` for every non-completed card, and
neither consults `chancesRemaining`. -/
def startActionAvailable (c : DashCard) : Bool :=
  !c.isCompleted

/-! ### Helper lemmas -/

/-- Trimming is idempotent: the first character surviving a left-then-right
trim is still non-whitespace, so a second trim changes nothing. -/
theorem trimChars_idempotent (l : List Char) :
    trimChars (trimChars l) = trimChars l := by
  have hdrop : List.dropWhile isJsWhitespace (trimChars l) = trimChars l := by
    rw [List.dropWhile_eq_self_iff]
    intro hl
    have hpre : trimChars l <+: List.dropWhile isJsWhitespace l :=
      List.rdropWhile_prefix _ _
    have hlen : 0 < (List.dropWhile isJsWhitespace l).length :=
      lt_of_lt_of_le hl hpre.length_le
    have hget : (trimChars l).get ⟨0, hl⟩ =
        (List.dropWhile isJsWhitespace l).get ⟨0, hlen⟩ := by
      simpa using hpre.getElem hl
    rw [hget]
    exact List.dropWhile_get_zero_not _ _ _
  show List.rdropWhile isJsWhitespace
      (List.dropWhile isJsWhitespace (trimChars l)) = trimChars l
  rw [hdrop]
  exact List.rdropWhile_idempotent _ _

/-- `jsTrim` is idempotent, matching JavaScript `String.prototype.trim`. -/
theorem jsTrim_idempotent (s : String) : jsTrim (jsTrim s) = jsTrim s := by
  show String.mk (trimChars (trimChars s.data)) = String.mk (trimChars s.data)
  rw [trimChars_idempotent]

/-- `jsRoundDiv` computes `⌊a/b + 1/2⌋` on the exact rational, the value of
`Math.round(a / b)` for nonnegative integers (half-up rounding). -/
theorem jsRoundDiv_eq_floor (a b : Nat) (hb : 0 < b) :
    jsRoundDiv a b = ⌊(a : ℚ) / (b : ℚ) + 1/2⌋₊ := by
  have hb' : (b : ℚ) ≠ 0 := by exact_mod_cast hb.ne'
  have key : (a : ℚ) / (b : ℚ) + 1/2 = ((2 * a + b : Nat) : ℚ) / ((2 * b : Nat) : ℚ) := by
    push_cast
    field_simp
    ring
  rw [jsRoundDiv, key]
  have h := Nat.floor_div_nat (α := ℚ) ((2 * a + b : Nat) : ℚ) (2 * b)
  rw [Nat.floor_natCast] at h
  exact h.symm

/-- Rounding a ratio `≤ 1` scaled by 100 stays within `0..100`. -/
theorem jsRoundDiv_hundred_le (p t : Nat) (hpt : p ≤ t) (ht : 0 < t) :
    jsRoundDiv (100 * p) t ≤ 100 := by
  have h1 : 2 * (100 * p) + t ≤ 201 * t := by nlinarith
  calc (2 * (100 * p) + t) / (2 * t) ≤ 201 * t / (2 * t) :=
        Nat.div_le_div_right h1
    _ = 201 / 2 := Nat.mul_div_mul_right 201 2 ht
    _ = 100 := by norm_num

theorem mapIdxFrom_length {α β : Type} (f : Nat → α → β) (i : Nat)
    (l : List α) : (mapIdxFrom f i l).length = l.length := by
  induction l generalizing i with
  | nil => rfl
  | cons a l ih => simp [mapIdxFrom, ih]

theorem mapIdxFrom_get {α β : Type} (f : Nat → α → β) (i j : Nat)
    (l : List α) (hj : j < l.length) :
    (mapIdxFrom f i l).get ⟨j, by rw [mapIdxFrom_length]; exact hj⟩ =
      f (i + j) (l.get ⟨j, hj⟩) := by
  induction l generalizing i j with
  | nil => exact absurd hj (by simp)
  | cons a l ih =>
      cases j with
      | zero => rfl
      | succ j =>
          have hj' : j < l.length := Nat.lt_of_succ_lt_succ hj
          have := ih (i + 1) j hj'
          simpa [mapIdxFrom, Nat.add_assoc, Nat.add_comm 1 j] using this

theorem mapIdxFrom_mem {α β : Type} (f : Nat → α → β) (i : Nat)
    (l : List α) (b : β) (hb : b ∈ mapIdxFrom f i l) :
    ∃ k a, a ∈ l ∧ b = f k a := by
  induction l generalizing i with
  | nil => exact absurd hb (by simp [mapIdxFrom])
  | cons a l ih =>
      rcases List.mem_cons.mp hb with h | h
      · exact ⟨i, a, List.mem_cons_self a l, h⟩
      · obtain ⟨k, a', ha', hb'⟩ := ih (i + 1) h
        exact ⟨k, a', List.mem_cons_of_mem a ha', hb'⟩

/-- The net effect of the batched delete loop: every document in the doomed
list or the pending batch is removed, everything else survives. -/
theorem runDeleteLoop_eq_filter (docs batch : List SubmissionDoc)
    (count : Nat) (store : List SubmissionDoc) :
    runDeleteLoop docs batch count store =
      store.filter fun d => !(decide (d ∈ docs ∨ d ∈ batch)) := by
  induction docs generalizing batch count store with
  | nil =>
      show commitBatch batch store = _
      unfold commitBatch
      refine List.filter_congr fun d _ => ?_
      simp
  | cons d rest ih =>
      simp only [runDeleteLoop]
      split_ifs with h
      · rw [ih, commitBatch, List.filter_filter]
        refine List.filter_congr fun x _ => ?_
        rw [← Bool.not_or, Bool.or_eq_decide]
        exact congrArg (fun b => !b)
          (decide_eq_decide.mpr (by simp [List.mem_cons]; tauto))
      · rw [ih]
        refine List.filter_congr fun x _ => ?_
        exact congrArg (fun b => !b)
          (decide_eq_decide.mpr (by simp [List.mem_cons]; tauto))

/-- Shape facts about `aggregateResults`, shared by the grading claims. -/
theorem aggregateResults_spec (results : List TestResult) :
    (aggregateResults results).passedTests ≤ (aggregateResults results).totalTests ∧
    (aggregateResults results).testCases = results ∧
    (aggregateResults results).totalTests = results.length ∧
    (aggregateResults results).passedTests = (results.filter (·.passed)).length ∧
    (aggregateResults results).score =
      (if 0 < results.length then
        jsRoundDiv (100 * (results.filter (·.passed)).length) results.length
      else 0) ∧
    (aggregateResults results).status =
      (if (results.filter (·.passed)).length = results.length then "accepted"
       else "wrong_answer") :=
  ⟨List.length_filter_le _ _, rfl, rfl, rfl, rfl, rfl⟩

/-- Every summary `executeCode` can return is an `aggregateResults` value. -/
theorem executeCode_ok (code language : String) (tcs : List TestCase)
    (env : ExecEnv) (s : ExecutionSummary)
    (h : executeCode code language tcs env = Except.ok s) :
    s = aggregateResults (executePython code tcs env.piston) ∨
    s = aggregateResults (executeJava code tcs env.javaPiston) ∨
    s = aggregateResults (executeSQL code tcs env.sql) := by
  unfold executeCode at h
  dsimp only at h
  split_ifs at h
  · exact Or.inl (Except.ok.inj h).symm
  · exact Or.inr (Or.inl (Except.ok.inj h).symm)
  · exact Or.inr (Or.inr (Except.ok.inj h).symm)

/-- C2: for every graded run produced by `executeCode`,
`score = round(100 * passedTests / totalTests)` when `totalTests > 0` and
`score = 0` when `totalTests = 0`; consequently `score ≤ 100` (and
`0 ≤ score` since scores are naturals) and `passedTests ≤ totalTests`; and
`status = "accepted"` exactly when `passedTests = totalTests`, otherwise
`"wrong_answer"`. -/
theorem executeCode_grading_spec (code language : String)
    (tcs : List TestCase) (env : ExecEnv) (s : ExecutionSummary)
    (h : executeCode code language tcs env = Except.ok s) :
    s.passedTests ≤ s.totalTests ∧
    (0 < s.totalTests →
      s.score = ⌊((100 * s.passedTests : Nat) : ℚ) / (s.totalTests : ℚ) + 1/2⌋₊) ∧
    (s.totalTests = 0 → s.score = 0) ∧
    s.score ≤ 100 ∧
    (s.status = "accepted" ↔ s.passedTests = s.totalTests) ∧
    (¬s.passedTests = s.totalTests → s.status = "wrong_answer") := by
  have hagg := executeCode_ok code language tcs env s h
  have key : ∀ results : List TestResult, s = aggregateResults results →
      s.passedTests ≤ s.totalTests ∧
      (0 < s.totalTests →
        s.score = ⌊((100 * s.passedTests : Nat) : ℚ) / (s.totalTests : ℚ) + 1/2⌋₊) ∧
      (s.totalTests = 0 → s.score = 0) ∧
      s.score ≤ 100 ∧
      (s.status = "accepted" ↔ s.passedTests = s.totalTests) ∧
      (¬s.passedTests = s.totalTests → s.status = "wrong_answer") := by
    intro results hs
    subst hs
    obtain ⟨hle, -, ht, hp, hscore, hstatus⟩ := aggregateResults_spec results
    constructor
    · exact hle
    refine ⟨?_, ?_, ?_, ?_, ?_⟩
    · intro hpos
      rw [ht] at hpos
      rw [hscore, if_pos hpos, ht, hp,
        jsRoundDiv_eq_floor _ _ hpos]
    · intro hzero
      rw [ht] at hzero
      rw [hscore, hzero]
      simp
    · rcases Nat.eq_zero_or_pos results.length with hzero | hpos
      · rw [hscore, hzero]
        simp
      · rw [hscore, if_pos hpos]
        exact jsRoundDiv_hundred_le _ _ (List.length_filter_le _ _) hpos
    · rw [hstatus, hp, ht]
      by_cases hacc : (results.filter (·.passed)).length = results.length <;>
        simp [hacc]
    · intro hne
      rw [hp, ht] at hne
      rw [hstatus, if_neg hne]
  rcases hagg with hs | hs | hs
  · exact key _ hs
  · exact key _ hs
  · exact key _ hs

/-- A one-test-case Python run used to witness C2. -/
def c2Tc : TestCase := { input := some "", expectedOutput := some "5" }

/-- Concrete execution environment used to witness C2. -/
def c2Env : ExecEnv :=
  { piston := fun _ => .response " 5 " "" (some 0) "" 3,
    javaPiston := fun _ => .apiError "unused",
    sql := { engineFailure := none, perTest := fun _ => .success [] 1 } }

/-- The summary of the C2 witness run. -/
def c2Summary : ExecutionSummary :=
  aggregateResults (executePython "print(5)" [c2Tc] c2Env.piston)

/-- Witness for C2: the grading specification holds on a concrete run. -/
theorem executeCode_grading_spec_witness :
    c2Summary.passedTests ≤ c2Summary.totalTests ∧
    (0 < c2Summary.totalTests →
      c2Summary.score =
        ⌊((100 * c2Summary.passedTests : Nat) : ℚ) / (c2Summary.totalTests : ℚ) + 1/2⌋₊) ∧
    (c2Summary.totalTests = 0 → c2Summary.score = 0) ∧
    c2Summary.score ≤ 100 ∧
    (c2Summary.status = "accepted" ↔ c2Summary.passedTests = c2Summary.totalTests) ∧
    (¬c2Summary.passedTests = c2Summary.totalTests →
      c2Summary.status = "wrong_answer") :=
  executeCode_grading_spec "print(5)" "python" [c2Tc] c2Env c2Summary rfl

/-- C10: `executeCode` on an empty test-case list returns
`passedTests = 0`, `totalTests = 0`, `score = 0` and status `"accepted"`
for each supported language — a vacuously accepted run scoring 0 — and the
guard at the public interface is `handleRunCode`, which only ever launches
a run with a nonempty test-case list. -/
theorem executeCode_empty_accepted (code : String) (env : ExecEnv) :
    executeCode code "python" [] env =
      Except.ok { testCases := [], score := 0, totalTests := 0,
                  passedTests := 0, status := "accepted" } ∧
    executeCode code "java" [] env =
      Except.ok { testCases := [], score := 0, totalTests := 0,
                  passedTests := 0, status := "accepted" } ∧
    executeCode code "sql" [] env =
      Except.ok { testCases := [], score := 0, totalTests := 0,
                  passedTests := 0, status := "accepted" } ∧
    (∀ (c : String) (q : Option Question) (d lang : String)
        (tcs : List TestCase),
      handleRunCode c q = .run d lang tcs → 0 < tcs.length) := by
  refine ⟨rfl, rfl, ?_, ?_⟩
  · have hsql : executeSQL code [] env.sql = [] := by
      rcases henv : env.sql.engineFailure with _ | m <;>
        simp [executeSQL, henv, mapIdxFrom]
    have h1 : ¬(jsToLower "sql" = "python") := by decide
    have h2 : ¬(jsToLower "sql" = "java") := by decide
    have h3 : jsToLower "sql" = "sql" := by decide
    unfold executeCode
    dsimp only
    rw [if_neg h1, if_neg h2, if_pos h3, hsql]
    rfl
  · intro c q d lang tcs h
    unfold handleRunCode at h
    split_ifs at h
    rcases q with _ | qn
    · cases h
    · dsimp only at h
      rcases hl : qn.language with _ | lang'
      · rw [hl] at h
        cases h
      · rw [hl] at h
        dsimp only at h
        split_ifs at h
        rcases htc : qn.testCases with _ | tcs'
        · rw [htc] at h
          cases h
        · rw [htc] at h
          dsimp only at h
          split_ifs at h with hlen
          cases h
          omega

/-- Environment fixture for the C10 witness. -/
def c10Env : ExecEnv :=
  { piston := fun _ => .apiError "unused",
    javaPiston := fun _ => .apiError "unused",
    sql := { engineFailure := none, perTest := fun _ => .success [] 1 } }

/-- Test-case fixture for the C10 witness. -/
def c10Tc : TestCase := { input := none, expectedOutput := some "1" }

/-- Question fixture for the C10 witness. -/
def c10Question : Question :=
  { id := "q", title := none, language := some "python", starterCode := none,
    testCases := some [c10Tc] }

/-- Witness for C10: concrete empty run is accepted with score 0, and the
run guard applied to a concrete question yields a nonempty list. -/
theorem executeCode_empty_accepted_witness :
    executeCode "print(1)" "python" [] c10Env =
      Except.ok { testCases := [], score := 0, totalTests := 0,
                  passedTests := 0, status := "accepted" } ∧
    0 < ([c10Tc] : List TestCase).length :=
  ⟨(executeCode_empty_accepted "print(1)" c10Env).1,
   (executeCode_empty_accepted "print(1)" c10Env).2.2.2 "print(1)"
     (some c10Question) (jsTrim "print(1)") "python" [c10Tc] rfl⟩

theorem mapIdxFrom_getElem? {α β : Type} (f : Nat → α → β) (i j : Nat)
    (l : List α) : (mapIdxFrom f i l)[j]? = (l[j]?).map (f (i + j)) := by
  induction l generalizing i j with
  | nil => simp [mapIdxFrom]
  | cons a l ih =>
      cases j with
      | zero => simp [mapIdxFrom]
      | succ j =>
          simp only [mapIdxFrom, List.getElem?_cons_succ, Nat.add_succ,
            Nat.succ_add]
          simpa only [Nat.add_succ, Nat.succ_add] using ih (i + 1) j

/-- C5: each executor returns exactly one result per input test case, in
order; the `j`-th result is computed from the `j`-th test case and the
outcome of its own awaited call alone (so one failing test case cannot
abort or alter its siblings), and an error outcome (API rejection, SQL
exception) is recorded as a `passed := false` result carrying a descriptive
message. -/
theorem executor_per_test_case (code : String) (tcs : List TestCase)
    (envP envJ : Nat → PistonOutcome) (envS : SqlEnv) :
    (executePython code tcs envP).length = tcs.length ∧
    (executeJava code tcs envJ).length = tcs.length ∧
    (executeSQL code tcs envS).length = tcs.length ∧
    (∀ j t, tcs[j]? = some t →
      (executePython code tcs envP)[j]? = some (runPythonOne t (envP j))) ∧
    (∀ j t, tcs[j]? = some t →
      (executeJava code tcs envJ)[j]? = some (runJavaOne t (envJ j))) ∧
    (envS.engineFailure = none → ∀ j t, tcs[j]? = some t →
      (executeSQL code tcs envS)[j]? = some (runSqlOne t (envS.perTest j))) ∧
    (∀ t m, runPythonOne t (.apiError m) =
      { input := t.input.getD "", expected := t.expectedOutput, actual := "",
        passed := false, executionTime := 0,
        error := some ("API Error: " ++ m) }) ∧
    (∀ t m, runJavaOne t (.apiError m) =
      { input := t.input.getD "", expected := t.expectedOutput, actual := "",
        passed := false, executionTime := 0,
        error := some ("API Error: " ++ m) }) ∧
    (∀ t m, runSqlOne t (.sqlError m) =
      { input := t.input.getD "", expected := t.expectedOutput, actual := "",
        passed := false, executionTime := 0,
        error := some ("SQL Error: " ++ m) }) := by
  refine ⟨mapIdxFrom_length _ _ _, mapIdxFrom_length _ _ _, ?_, ?_, ?_, ?_,
    fun t m => rfl, fun t m => rfl, fun t m => rfl⟩
  · rcases henv : envS.engineFailure with _ | m
    · simp only [executeSQL, henv]
      exact mapIdxFrom_length _ _ _
    · simp only [executeSQL, henv]
      exact List.length_map _ _
  · intro j t ht
    unfold executePython
    rw [mapIdxFrom_getElem?, ht]
    simp
  · intro j t ht
    unfold executeJava
    rw [mapIdxFrom_getElem?, ht]
    simp
  · intro hnone j t ht
    simp only [executeSQL, hnone]
    rw [mapIdxFrom_getElem?, ht]
    simp

/-- SQL environment fixture for the C5 witness: the second test case's
execution throws. -/
def c5SqlEnv : SqlEnv :=
  { engineFailure := none,
    perTest := fun i => if i = 1 then .sqlError "no such table: t"
      else .success ["\x7b\"x\":1\x7d"] 2 }

/-- Test-case fixtures for the C5 witness. -/
def c5Tc1 : TestCase :=
  { input := some "CREATE TABLE t(x INT); INSERT INTO t VALUES (1);",
    expectedOutput := some "[\x7b\"x\":1\x7d]" }

/-- Second test-case fixture for the C5 witness. -/
def c5Tc2 : TestCase := { input := some "", expectedOutput := some "[]" }

/-- Witness for C5: on a concrete two-test-case SQL run whose second call
throws, the first result is still computed from its own outcome and the
second is the recorded failure. -/
theorem executor_per_test_case_witness :
    (executeSQL "SELECT * FROM t" [c5Tc1, c5Tc2] c5SqlEnv)[0]? =
      some (runSqlOne c5Tc1 (c5SqlEnv.perTest 0)) ∧
    (executeSQL "SELECT * FROM t" [c5Tc1, c5Tc2] c5SqlEnv)[1]? =
      some (runSqlOne c5Tc2 (c5SqlEnv.perTest 1)) ∧
    (runSqlOne c5Tc2 (c5SqlEnv.perTest 1)).passed = false :=
  ⟨((executor_per_test_case "SELECT * FROM t" [c5Tc1, c5Tc2]
      (fun _ => .apiError "unused") (fun _ => .apiError "unused")
      c5SqlEnv).2.2.2.2.2.1 rfl 0 c5Tc1 rfl),
   ((executor_per_test_case "SELECT * FROM t" [c5Tc1, c5Tc2]
      (fun _ => .apiError "unused") (fun _ => .apiError "unused")
      c5SqlEnv).2.2.2.2.2.1 rfl 1 c5Tc2 rfl),
   by decide⟩

theorem runPythonOne_passed_trim (t : TestCase) (o : PistonOutcome)
    (h : (runPythonOne t o).passed = true) :
    jsTrim (runPythonOne t o).actual =
      jsTrim ((runPythonOne t o).expected.getD "") := by
  cases o with
  | apiError m => simp [runPythonOne] at h
  | response stdout stderr ec cst ms =>
      by_cases h1 : ec.getD 1 = 0
      · by_cases h2 : jsTrim stdout = jsTrim (t.expectedOutput.getD "")
        · simp [runPythonOne, h1, h2, jsTrim_idempotent]
        · simp [runPythonOne, h1, h2] at h
      · simp [runPythonOne, h1] at h

theorem runJavaOne_passed_trim (t : TestCase) (o : PistonOutcome)
    (h : (runJavaOne t o).passed = true) :
    jsTrim (runJavaOne t o).actual =
      jsTrim ((runJavaOne t o).expected.getD "") := by
  cases o with
  | apiError m => simp [runJavaOne] at h
  | response stdout stderr ec cst ms =>
      by_cases h0 : cst ≠ ""
      · simp [runJavaOne, h0] at h
      · by_cases h1 : ec.getD 1 = 0
        · by_cases h2 : jsTrim stdout = jsTrim (t.expectedOutput.getD "")
          · simp [runJavaOne, h0, h1, h2, jsTrim_idempotent]
          · simp [runJavaOne, h0, h1, h2] at h
        · simp [runJavaOne, h0, h1] at h

theorem runSqlOne_passed_trim (t : TestCase) (o : SqlOutcome)
    (h : (runSqlOne t o).passed = true) :
    jsTrim (runSqlOne t o).actual =
      jsTrim ((runSqlOne t o).expected.getD "") := by
  cases o with
  | sqlError m => simp [runSqlOne] at h
  | success rows ms =>
      by_cases h2 : jsTrim (t.expectedOutput.getD "") = jsTrim (sqlStringify rows)
      · simp [runSqlOne, h2]
      · simp [runSqlOne, h2] at h

/-- Test case for the C1 counterexample. -/
def c1Tc : TestCase := { input := some "", expectedOutput := some "42" }

/-- Environment for the C1 counterexample: the program prints the expected
output but exits with a non-zero code. -/
def c1Env : Nat → PistonOutcome :=
  fun _ => .response "42\n" "boom" (some 1) "" 5

/-- The single result of the C1 counterexample run. -/
def c1Result : TestResult :=
  runPythonOne c1Tc (.response "42\n" "boom" (some 1) "" 5)

/-- Counterexample to C1: on this error-path result the recorded flag is
`passed = false` although the trimmed actual output equals the trimmed
expected output, so `passed ⇔ trim(actual) = trim(expected)` fails on error
paths. -/
theorem passed_iff_trim_counterexample :
    c1Result ∈ executePython "print(42)" [c1Tc] c1Env ∧
    c1Result.passed = false ∧
    jsTrim c1Result.actual = jsTrim (c1Result.expected.getD "") := by
  refine ⟨?_, ?_, ?_⟩ <;> decide

/-- C1 (amended): `passed = true` always implies
`trim(actual) = trim(expected)`, and the full biconditional
`passed ⇔ trim(actual) = trim(expected)` holds exactly on the non-error
paths (exit code 0 with no compilation error for Python/Java, successful
execution for SQL, the SQL comparison being against the JSON serialization
of the result rows); on every error path (API error, non-zero exit,
compilation error, SQL exception) the recorded flag is `false` regardless
of output equality. -/
theorem passed_implies_trim_eq :
    (∀ code tcs env r, r ∈ executePython code tcs env → r.passed = true →
      jsTrim r.actual = jsTrim (r.expected.getD "")) ∧
    (∀ code tcs env r, r ∈ executeJava code tcs env → r.passed = true →
      jsTrim r.actual = jsTrim (r.expected.getD "")) ∧
    (∀ code tcs env r, r ∈ executeSQL code tcs env → r.passed = true →
      jsTrim r.actual = jsTrim (r.expected.getD "")) ∧
    (∀ t stdout stderr cst ms,
      (runPythonOne t (.response stdout stderr (some 0) cst ms)).passed =
        decide (jsTrim stdout = jsTrim (t.expectedOutput.getD ""))) ∧
    (∀ t stdout stderr ms,
      (runJavaOne t (.response stdout stderr (some 0) "" ms)).passed =
        decide (jsTrim stdout = jsTrim (t.expectedOutput.getD ""))) ∧
    (∀ t rows ms,
      (runSqlOne t (.success rows ms)).passed =
        decide (jsTrim (t.expectedOutput.getD "") = jsTrim (sqlStringify rows))) ∧
    (∀ t m, (runPythonOne t (.apiError m)).passed = false) ∧
    (∀ t stdout stderr ec cst ms, ec.getD 1 ≠ 0 →
      (runPythonOne t (.response stdout stderr ec cst ms)).passed = false) ∧
    (∀ t m, (runJavaOne t (.apiError m)).passed = false) ∧
    (∀ t stdout stderr ec cst ms, cst ≠ "" →
      (runJavaOne t (.response stdout stderr ec cst ms)).passed = false) ∧
    (∀ t stdout stderr ec cst ms, ec.getD 1 ≠ 0 →
      (runJavaOne t (.response stdout stderr ec cst ms)).passed = false) ∧
    (∀ t m, (runSqlOne t (.sqlError m)).passed = false) := by
  refine ⟨?_, ?_, ?_, ?_, ?_, ?_, fun t m => rfl, ?_, fun t m => rfl, ?_, ?_,
    fun t m => rfl⟩
  · intro code tcs env r hr hp
    obtain ⟨k, a, _, rfl⟩ := mapIdxFrom_mem _ _ _ _ hr
    exact runPythonOne_passed_trim a (env k) hp
  · intro code tcs env r hr hp
    obtain ⟨k, a, _, rfl⟩ := mapIdxFrom_mem _ _ _ _ hr
    exact runJavaOne_passed_trim a (env k) hp
  · intro code tcs env r hr hp
    rcases henv : env.engineFailure with _ | m
    · rw [executeSQL, henv] at hr
      obtain ⟨k, a, _, rfl⟩ := mapIdxFrom_mem _ _ _ _ hr
      exact runSqlOne_passed_trim a (env.perTest k) hp
    · rw [executeSQL, henv] at hr
      obtain ⟨a, _, rfl⟩ := List.mem_map.mp hr
      simp at hp
  · intro t stdout stderr cst ms
    by_cases h2 : jsTrim stdout = jsTrim (t.expectedOutput.getD "")
    · simp [runPythonOne, h2]
    · simp [runPythonOne, h2]
  · intro t stdout stderr ms
    by_cases h2 : jsTrim stdout = jsTrim (t.expectedOutput.getD "")
    · simp [runJavaOne, h2]
    · simp [runJavaOne, h2]
  · intro t rows ms
    by_cases h2 : jsTrim (t.expectedOutput.getD "") = jsTrim (sqlStringify rows)
    · simp [runSqlOne, h2]
    · simp [runSqlOne, h2]
  · intro t stdout stderr ec cst ms h1
    simp [runPythonOne, h1]
  · intro t stdout stderr ec cst ms h0
    simp [runJavaOne, h0]
  · intro t stdout stderr ec cst ms h1
    by_cases h0 : cst ≠ ""
    · simp [runJavaOne, h0]
    · simp [runJavaOne, h0, h1]

/-- Test case for the C1 witness. -/
def c1PassTc : TestCase := { input := some "", expectedOutput := some "7" }

/-- Environment for the C1 witness: stdout matches after trimming. -/
def c1PassEnv : Nat → PistonOutcome :=
  fun _ => .response " 7 \n" "" (some 0) "" 2

/-- The single result of the C1 witness run. -/
def c1PassResult : TestResult :=
  runPythonOne c1PassTc (.response " 7 \n" "" (some 0) "" 2)

/-- Witness for C1 (amended) at a concrete passing Python result. -/
theorem passed_implies_trim_eq_witness :
    jsTrim c1PassResult.actual = jsTrim (c1PassResult.expected.getD "") :=
  passed_implies_trim_eq.1 "print(7)" [c1PassTc] c1PassEnv c1PassResult
    (by decide) (by decide)

theorem sum_earned_eq (w : Nat) (items : List ReviewItem)
    (h : ∀ it ∈ items,
      it.earnedPoints = if it.status = "accepted" then w else 0) :
    (items.map (·.earnedPoints)).sum =
      (items.filter (·.status == "accepted")).length * w := by
  induction items with
  | nil => simp
  | cons a l ih =>
      have ha := h a (List.mem_cons_self a l)
      have hl := fun it hit => h it (List.mem_cons_of_mem a hit)
      by_cases hacc : a.status = "accepted"
      · simp only [List.map_cons, List.sum_cons, List.filter_cons, hacc, ha,
          if_pos hacc, beq_self_eq_true, if_true, List.length_cons, ih hl]
        ring
      · simp only [List.map_cons, List.sum_cons, List.filter_cons, ha,
          if_neg hacc, ih hl]
        rw [if_neg (by simpa using hacc)]
        omega

/-- C3: in the review built at completion each question earns exactly
`reviewWeight totalQuestions = round(100 / totalQuestions)` points when its
resolved latest-submission status is `"accepted"` and 0 otherwise,
`totalScore` is the sum of these per-question points (equivalently,
`completedCount * weight`, so partial test-case credit never contributes),
and an assessment of 3 questions with 2 accepted scores
`round(100/3) * 2 = 66`. -/
theorem buildAssessmentReview_spec (qs : List Question)
    (subs : String → Option SubmissionRecord)
    (latest : Option SubmissionRecord) :
    (buildAssessmentReview qs subs latest).items.length = qs.length ∧
    (∀ it ∈ (buildAssessmentReview qs subs latest).items,
      it.earnedPoints =
        if it.status = "accepted" then reviewWeight qs.length else 0) ∧
    (buildAssessmentReview qs subs latest).totalScore =
      ((buildAssessmentReview qs subs latest).items.map (·.earnedPoints)).sum ∧
    (buildAssessmentReview qs subs latest).totalScore =
      (buildAssessmentReview qs subs latest).completedCount *
        reviewWeight qs.length ∧
    (qs.length = 3 →
      (buildAssessmentReview qs subs latest).completedCount = 2 →
      (buildAssessmentReview qs subs latest).totalScore = 66 ∧
      (66 : Nat) = 2 * ⌊(100 : ℚ) / 3 + 1/2⌋₊) := by
  have hpt : ∀ it ∈ (buildAssessmentReview qs subs latest).items,
      it.earnedPoints =
        if it.status = "accepted" then reviewWeight qs.length else 0 := by
    intro it hit
    obtain ⟨q, -, rfl⟩ := List.mem_map.mp hit
    rfl
  have hsum : (buildAssessmentReview qs subs latest).totalScore =
      (buildAssessmentReview qs subs latest).completedCount *
        reviewWeight qs.length :=
    sum_earned_eq (reviewWeight qs.length) _ hpt
  refine ⟨List.length_map _ _, hpt, rfl, hsum, ?_⟩
  intro h3 h2
  constructor
  · rw [hsum, h2, h3]
    decide
  · have hw := jsRoundDiv_eq_floor 100 3 (by norm_num)
    rw [show ((100 : Nat) : ℚ) = (100 : ℚ) by norm_num,
      show ((3 : Nat) : ℚ) = (3 : ℚ) by norm_num] at hw
    rw [← hw]
    decide

/-- Question fixtures for the C3 witness. -/
def c3Q1 : Question :=
  { id := "q1", title := some "A", language := some "python",
    starterCode := none, testCases := none }

/-- Second question fixture for the C3 witness. -/
def c3Q2 : Question :=
  { id := "q2", title := some "B", language := some "python",
    starterCode := none, testCases := none }

/-- Third question fixture for the C3 witness. -/
def c3Q3 : Question :=
  { id := "q3", title := some "C", language := some "sql",
    starterCode := none, testCases := none }

/-- Stored submissions for the C3 witness: `q1` fully accepted, `q2` with
partial test-case credit (1 of 2) and status `wrong_answer`. -/
def c3Subs : String → Option SubmissionRecord := fun qid =>
  if qid = "q1" then
    some { questionId := "q1", status := some "accepted", testResults := none,
           score := some 100, passedTests := some 2, totalTests := some 2,
           testCasesResults := some [], timeSpent := some 30,
           code := some "print(1)" }
  else if qid = "q2" then
    some { questionId := "q2", status := some "wrong_answer",
           testResults := none, score := some 50, passedTests := some 1,
           totalTests := some 2, testCasesResults := some [],
           timeSpent := some 40, code := some "print(2)" }
  else none

/-- The just-submitted record for the C3 witness (third question accepted). -/
def c3Latest : SubmissionRecord :=
  { questionId := "q3", status := some "accepted", testResults := none,
    score := some 100, passedTests := some 1, totalTests := some 1,
    testCasesResults := some [], timeSpent := some 20,
    code := some "SELECT 1" }

/-- Witness for C3: the concrete 3-question review with 2 accepted questions
(and partial credit on the third) totals `round(100/3) * 2 = 66`. -/
theorem buildAssessmentReview_spec_witness :
    (buildAssessmentReview [c3Q1, c3Q2, c3Q3] c3Subs (some c3Latest)).totalScore = 66 ∧
    (66 : Nat) = 2 * ⌊(100 : ℚ) / 3 + 1/2⌋₊ :=
  (buildAssessmentReview_spec [c3Q1, c3Q2, c3Q3] c3Subs
    (some c3Latest)).2.2.2.2 rfl (by decide)

/-- C6 (amended): the review's average execution time is the rounded mean of
per-question `executionTimeMs` (the sum of that question's test-case
execution times) taken over **all questions of the assessment** — attempted
or not, a question without any submission contributing 0 — not only over
the attempted ones. -/
theorem computeAvgExecMs_all_questions (qs : List Question)
    (subs : String → Option SubmissionRecord)
    (latest : Option SubmissionRecord) :
    computeAvgExecMs (some (buildAssessmentReview qs subs latest)) =
      if qs.length = 0 then 0
      else jsRoundDiv
        ((qs.map fun q => resolvedExecMs (resolveSub latest subs q.id)).sum)
        qs.length := by
  have hitems : (buildAssessmentReview qs subs latest).items =
      qs.map (mkReviewItem (reviewWeight qs.length) latest subs) := rfl
  simp only [computeAvgExecMs]
  rw [hitems, List.length_map, List.map_map]
  rfl

/-- Question fixtures for the C6 counterexample. -/
def c6Q1 : Question :=
  { id := "q1", title := none, language := some "python",
    starterCode := none, testCases := none }

/-- Second question fixture for the C6 counterexample. -/
def c6Q2 : Question :=
  { id := "q2", title := none, language := some "python",
    starterCode := none, testCases := none }

/-- A test-case result taking 100 ms, for the C6 counterexample. -/
def c6Tr : TestResult :=
  { input := "", expected := none, actual := "", passed := true,
    executionTime := 100, error := none }

/-- The only submission of the C6 counterexample (question `q2`). -/
def c6Latest : SubmissionRecord :=
  { questionId := "q2", status := some "accepted", testResults := none,
    score := some 100, passedTests := some 1, totalTests := some 1,
    testCasesResults := some [c6Tr], timeSpent := some 10,
    code := some "print(1)" }

/-- Empty stored-submission map for the C6 counterexample. -/
def c6Subs : String → Option SubmissionRecord := fun _ => none

/-- Counterexample to C6: with question `q1` never attempted and `q2`
attempted at 100 ms, the code averages over both questions
(`round(100/2) = 50`), not over the attempted ones (which would give 100),
so `avgExecMs` is not the mean over attempted questions. -/
theorem avgExecMs_counterexample :
    computeAvgExecMs
      (some (buildAssessmentReview [c6Q1, c6Q2] c6Subs (some c6Latest))) = 50 ∧
    specAvgExecMsAttempted [c6Q1, c6Q2] c6Subs (some c6Latest) = 100 ∧
    (50 : Nat) ≠ 100 := by
  refine ⟨?_, ?_, ?_⟩ <;> decide

/-- C4: after `cleanupSubmissionsAndPersistScore` runs for a completed
assessment's review, every `submissions` document of the `(userId,
assessmentId)` pair has been deleted (through the fixed-size batch loop)
while all other documents survive, and the user's
`assessmentsCompleted[assessmentId]` entry holds
`{score = review.totalScore, avgExecMs, completedAt}`; entries of other
users or assessments are untouched. -/
theorem cleanup_spec (uid aid : String) (r : Review) (totalScore : Option Nat)
    (now : Nat) (st : FirestoreState) :
    (cleanupSubmissionsAndPersistScore uid aid (some r) totalScore now
        st).submissions =
      st.submissions.filter
        (fun d => !(d.userId == uid && d.assessmentId == aid)) ∧
    (∀ d, d ∈ (cleanupSubmissionsAndPersistScore uid aid (some r) totalScore
        now st).submissions → ¬(d.userId = uid ∧ d.assessmentId = aid)) ∧
    (cleanupSubmissionsAndPersistScore uid aid (some r) totalScore now
        st).assessmentsCompleted uid aid =
      some { score := r.totalScore, avgExecMs := computeAvgExecMs (some r),
             completedAt := now } ∧
    (∀ u a, ¬(u = uid ∧ a = aid) →
      (cleanupSubmissionsAndPersistScore uid aid (some r) totalScore now
          st).assessmentsCompleted u a = st.assessmentsCompleted u a) := by
  have hsubs : (cleanupSubmissionsAndPersistScore uid aid (some r) totalScore
      now st).submissions =
      st.submissions.filter
        (fun d => !(d.userId == uid && d.assessmentId == aid)) := by
    show runDeleteLoop
        (st.submissions.filter fun d => d.userId == uid && d.assessmentId == aid)
        [] 0 st.submissions = _
    rw [runDeleteLoop_eq_filter]
    refine List.filter_congr fun d hd => ?_
    refine congrArg (fun b => !b) ?_
    have hiff : (d ∈ (st.submissions.filter fun d =>
          d.userId == uid && d.assessmentId == aid) ∨
        d ∈ ([] : List SubmissionDoc)) ↔
        ((d.userId == uid && d.assessmentId == aid) = true) := by
      simp [List.mem_filter, hd]
    calc decide (d ∈ (st.submissions.filter fun d =>
            d.userId == uid && d.assessmentId == aid) ∨
          d ∈ ([] : List SubmissionDoc))
        = decide ((d.userId == uid && d.assessmentId == aid) = true) :=
          decide_eq_decide.mpr hiff
      _ = (d.userId == uid && d.assessmentId == aid) := by
          cases hpd : (d.userId == uid && d.assessmentId == aid) <;>
            simp [hpd]
  refine ⟨hsubs, ?_, ?_, ?_⟩
  · intro d hd
    rw [hsubs] at hd
    have := (List.mem_filter.mp hd).2
    simp only [Bool.not_eq_true']  at this
    intro hcon
    rw [hcon.1, hcon.2] at this
    simp at this
  · show (if uid = uid ∧ aid = aid then _ else _) = _
    rw [if_pos ⟨rfl, rfl⟩]
  · intro u a hne
    show (if u = uid ∧ a = aid then _ else _) = _
    rw [if_neg hne]

/-- Submission-document fixtures for the C4 witness. -/
def c4Sub1 : SubmissionDoc :=
  { docId := "d1", userId := "u1", assessmentId := "a1", questionId := "q1" }

/-- Second submission-document fixture for the C4 witness. -/
def c4Sub2 : SubmissionDoc :=
  { docId := "d2", userId := "u1", assessmentId := "a1", questionId := "q2" }

/-- A submission of another user, surviving the C4 witness cleanup. -/
def c4Sub3 : SubmissionDoc :=
  { docId := "d3", userId := "u2", assessmentId := "a1", questionId := "q1" }

/-- Firestore fixture for the C4 witness. -/
def c4State : FirestoreState :=
  { submissions := [c4Sub1, c4Sub2, c4Sub3],
    assessmentsCompleted := fun _ _ => none }

/-- Review fixture for the C4 witness. -/
def c4Review : Review :=
  { totalQuestions := 2, completedCount := 1, totalScore := 50,
    items :=
      [{ questionId := "q1", title := none, status := "accepted",
         passedTests := 1, totalTests := 1, earnedPoints := 50,
         executionTimeMs := 120, timeSpent := none, code := "x" },
       { questionId := "q2", title := none, status := "wrong_answer",
         passedTests := 0, totalTests := 1, earnedPoints := 0,
         executionTimeMs := 80, timeSpent := none, code := "y" }] }

/-- Witness for C4 on a concrete three-document store: both documents of
`(u1, a1)` are deleted, the stranger's document survives, the completion
entry is written, and the other user's map entry is untouched. -/
theorem cleanup_spec_witness :
    (cleanupSubmissionsAndPersistScore "u1" "a1" (some c4Review) none 777
        c4State).submissions =
      c4State.submissions.filter
        (fun d => !(d.userId == "u1" && d.assessmentId == "a1")) ∧
    (cleanupSubmissionsAndPersistScore "u1" "a1" (some c4Review) none 777
        c4State).assessmentsCompleted "u1" "a1" =
      some { score := c4Review.totalScore,
             avgExecMs := computeAvgExecMs (some c4Review),
             completedAt := 777 } ∧
    (cleanupSubmissionsAndPersistScore "u1" "a1" (some c4Review) none 777
        c4State).assessmentsCompleted "u2" "a1" =
      c4State.assessmentsCompleted "u2" "a1" :=
  ⟨(cleanup_spec "u1" "a1" c4Review none 777 c4State).1,
   (cleanup_spec "u1" "a1" c4Review none 777 c4State).2.2.1,
   (cleanup_spec "u1" "a1" c4Review none 777 c4State).2.2.2 "u2" "a1"
     (by simp)⟩

/-- C7 (amended): saving a session and loading it again at most 24 hours
later returns the saved payload unchanged, and the cache-restore effect
then restores identical `timeRemaining`, `sessionStartTime` and
`testResults`; the restored `code` is the saved code whenever it is
nonempty, but an empty saved code falls back to the question's starter
code.  An entry strictly older than 24 hours is not restored:
`loadFromCache` returns `none` and removes it. -/
theorem loadFromCache_fresh (k : String) (now : Nat) (ls : Storage)
    (c : CachePayload) (h : ls k = some c)
    (hfr : now - c.lastSaved ≤ maxCacheAgeMs) :
    loadFromCache (some k) now ls = (some c, ls) := by
  simp only [loadFromCache, h]
  rw [if_neg (Nat.not_lt.mpr hfr)]

theorem loadFromCache_stale (k : String) (now : Nat) (ls : Storage)
    (c : CachePayload) (h : ls k = some c)
    (hst : maxCacheAgeMs < now - c.lastSaved) :
    loadFromCache (some k) now ls =
      (none, fun j => if j = k then none else ls j) := by
  simp only [loadFromCache, h]
  rw [if_pos hst]

theorem cache_round_trip (st : EditorState) (k : String) (qn : Question)
    (t tLoad : Nat) (ls : Storage) (stAny : EditorState)
    (hq : st.currentQuestion.isSome = true)
    (hfresh : tLoad - t ≤ maxCacheAgeMs) :
    (loadFromCache (some k) tLoad (saveToCache st (some k) t ls)).1 =
      some { code := st.code, timeRemaining := st.timeRemaining,
             sessionStartTime := st.sessionStartTime,
             questionId := st.questionId, lastSaved := t,
             testResults := st.testResults } ∧
    (restoreSession qn st.questionId
        (loadFromCache (some k) tLoad (saveToCache st (some k) t ls)).1
        stAny).timeRemaining = st.timeRemaining ∧
    (restoreSession qn st.questionId
        (loadFromCache (some k) tLoad (saveToCache st (some k) t ls)).1
        stAny).sessionStartTime = st.sessionStartTime ∧
    (restoreSession qn st.questionId
        (loadFromCache (some k) tLoad (saveToCache st (some k) t ls)).1
        stAny).testResults = st.testResults ∧
    (restoreSession qn st.questionId
        (loadFromCache (some k) tLoad (saveToCache st (some k) t ls)).1
        stAny).code =
      (if st.code = "" then starterOrDefault qn else st.code) ∧
    (∀ tExp, maxCacheAgeMs < tExp - t →
      (loadFromCache (some k) tExp (saveToCache st (some k) t ls)).1 = none ∧
      (loadFromCache (some k) tExp (saveToCache st (some k) t ls)).2 k =
        none) := by
  obtain ⟨q0, hq0⟩ := Option.isSome_iff_exists.mp hq
  have hlsk : saveToCache st (some k) t ls k =
      some { code := st.code, timeRemaining := st.timeRemaining,
             sessionStartTime := st.sessionStartTime,
             questionId := st.questionId, lastSaved := t,
             testResults := st.testResults } := by
    simp only [saveToCache, hq0]
    simp
  have hload : (loadFromCache (some k) tLoad (saveToCache st (some k) t ls)).1 =
      some { code := st.code, timeRemaining := st.timeRemaining,
             sessionStartTime := st.sessionStartTime,
             questionId := st.questionId, lastSaved := t,
             testResults := st.testResults } := by
    rw [loadFromCache_fresh k tLoad _ _ hlsk hfresh]
  refine ⟨hload, ?_, ?_, ?_, ?_, ?_⟩
  · rw [hload]
    simp [restoreSession]
  · rw [hload]
    simp [restoreSession]
  · rw [hload]
    simp [restoreSession]
  · rw [hload]
    simp only [restoreSession, if_pos rfl]
    rfl
  · intro tExp hgt
    rw [loadFromCache_stale k tExp _ _ hlsk hgt]
    exact ⟨rfl, by simp⟩

/-- Question fixture for the C7 counterexample. -/
def c7Qn : Question :=
  { id := "q1", title := none, language := some "python",
    starterCode := some "print(0)", testCases := none }

/-- Session snapshot with empty code for the C7 counterexample. -/
def c7St : EditorState :=
  { code := "", timeRemaining := 300, sessionStartTime := 10,
    questionId := "q1", testResults := none, currentQuestion := some c7Qn }

/-- Counterexample to C7: a snapshot with empty `code` is saved and loaded
within 24 hours, yet the restore effect replaces the empty code with the
question's starter code (`cached.code || starterCode`), so the restored
`code` is not identical to the saved one. -/
theorem cache_round_trip_counterexample :
    (restoreSession c7Qn "q1"
        (loadFromCache (some "k") 1000
          (saveToCache c7St (some "k") 500 (fun _ => none))).1 c7St).code =
      "print(0)" ∧
    c7St.code = "" ∧
    ("print(0)" : String) ≠ "" := by
  refine ⟨by decide, rfl, by decide⟩

/-- Question fixture for the C7 witness. -/
def c7WQn : Question :=
  { id := "q2", title := none, language := some "python",
    starterCode := some "start", testCases := none }

/-- Session snapshot with nonempty code for the C7 witness. -/
def c7WSt : EditorState :=
  { code := "x = 1", timeRemaining := 200, sessionStartTime := 5,
    questionId := "q2", testResults := none, currentQuestion := some c7WQn }

/-- Witness for C7 (amended) at a concrete nonempty-code snapshot saved at
100 ms and loaded at 600 ms. -/
theorem cache_round_trip_witness :
    (loadFromCache (some "key") 600
        (saveToCache c7WSt (some "key") 100 (fun _ => none))).1 =
      some { code := c7WSt.code, timeRemaining := c7WSt.timeRemaining,
             sessionStartTime := c7WSt.sessionStartTime,
             questionId := c7WSt.questionId, lastSaved := 100,
             testResults := c7WSt.testResults } ∧
    (restoreSession c7WQn c7WSt.questionId
        (loadFromCache (some "key") 600
          (saveToCache c7WSt (some "key") 100 (fun _ => none))).1
        c7WSt).timeRemaining = c7WSt.timeRemaining ∧
    (restoreSession c7WQn c7WSt.questionId
        (loadFromCache (some "key") 600
          (saveToCache c7WSt (some "key") 100 (fun _ => none))).1
        c7WSt).sessionStartTime = c7WSt.sessionStartTime ∧
    (restoreSession c7WQn c7WSt.questionId
        (loadFromCache (some "key") 600
          (saveToCache c7WSt (some "key") 100 (fun _ => none))).1
        c7WSt).testResults = c7WSt.testResults ∧
    (restoreSession c7WQn c7WSt.questionId
        (loadFromCache (some "key") 600
          (saveToCache c7WSt (some "key") 100 (fun _ => none))).1
        c7WSt).code =
      (if c7WSt.code = "" then starterOrDefault c7WQn else c7WSt.code) ∧
    (∀ tExp, maxCacheAgeMs < tExp - 100 →
      (loadFromCache (some "key") tExp
        (saveToCache c7WSt (some "key") 100 (fun _ => none))).1 = none ∧
      (loadFromCache (some "key") tExp
        (saveToCache c7WSt (some "key") 100 (fun _ => none))).2 "key" =
        none) :=
  cache_round_trip c7WSt "key" c7WQn 100 600 (fun _ => none) c7WSt rfl
    (by decide)

/-- C8 (amended): on every dashboard card,
`chancesRemaining = max(0, chances − submissionCount)` where
`submissionCount` counts the user's submission rows for that assessment
**only when the assessment is not completed** (for a completed assessment
the count is taken as 0, so `chancesRemaining = chances` even if rows
linger); and exhausting chances does not disable anything: the start/retake
action is available exactly when the assessment is not completed, and
`canRetake` likewise ignores `chancesRemaining`. -/
theorem dashboardCard_spec (a : AssessmentDoc) (entry : Option CompletionEntry)
    (subs : List DashSubmission) :
    (buildCard a entry subs).isCompleted = entry.isSome ∧
    (entry = none →
      (buildCard a entry subs).chancesRemaining =
        max 0 ((jsOrNat a.chances 1 : Int) -
          ((subs.filter (·.assessmentId == a.id)).length : Int))) ∧
    (entry.isSome = true →
      (buildCard a entry subs).chancesRemaining = (jsOrNat a.chances 1 : Int)) ∧
    startActionAvailable (buildCard a entry subs) =
      !(buildCard a entry subs).isCompleted ∧
    (buildCard a entry subs).canRetake =
      (!(buildCard a entry subs).isCompleted &&
        decide (0 < (buildCard a entry subs).chancesUsed)) := by
  cases entry with
  | none =>
      exact ⟨rfl, fun _ => rfl, fun h => absurd h (by decide), rfl, rfl⟩
  | some e =>
      refine ⟨rfl, fun h => Option.noConfusion h, fun _ => ?_, rfl, rfl⟩
      show max 0 ((jsOrNat a.chances 1 : Int) - ((0 : Nat) : Int)) =
        (jsOrNat a.chances 1 : Int)
      omega

/-- Assessment fixture for the C8 counterexample (one allowed chance). -/
def c8A : AssessmentDoc := { id := "a1", chances := some 1 }

/-- A prior submission row for the C8 counterexample. -/
def c8Sub : DashSubmission := { assessmentId := "a1" }

/-- A completion entry for the C8 counterexample. -/
def c8Entry : CompletionEntry := { score := 100, avgExecMs := 5, completedAt := 0 }

/-- Counterexample to C8: with `chances = 1` and one prior submission on a
non-completed assessment, `chancesRemaining = 0` yet the dashboard still
offers the start/retake action (nothing is disabled); and on a completed
assessment with a lingering row the claimed formula gives
`max(0, 1 − 1) = 0` while the code yields `chancesRemaining = 1` because it
forces the submission count to 0. -/
theorem chances_retake_counterexample :
    (buildCard c8A none [c8Sub]).chancesRemaining = 0 ∧
    startActionAvailable (buildCard c8A none [c8Sub]) = true ∧
    (buildCard c8A (some c8Entry) [c8Sub]).chancesRemaining = 1 ∧
    max 0 ((1 : Int) - (1 : Int)) = 0 := by
  refine ⟨?_, ?_, ?_, ?_⟩ <;> decide

/-- Witness for C8 (amended) at the concrete exhausted-chances card. -/
theorem dashboardCard_spec_witness :
    (buildCard c8A none [c8Sub]).chancesRemaining =
      max 0 ((jsOrNat c8A.chances 1 : Int) -
        (([c8Sub].filter (·.assessmentId == c8A.id)).length : Int)) :=
  (dashboardCard_spec c8A none [c8Sub]).2.1 rfl

/-- C9: Submit requires a prior Run — with no run results
(`testResults = none`) `handleSubmitSolution` raises only the error toast
and leaves the world untouched (no submission document, no local
submissions-map change, no cache change); when run results are present it
appends exactly the one submission document built from them. -/
theorem handleSubmitSolution_requires_run (q : Question) (code : String)
    (timeSpent : Nat) (key : Option String) (w : SubmitWorld) :
    handleSubmitSolution q code none timeSpent key w = w ∧
    (∀ tr : ExecutionSummary,
      (handleSubmitSolution q code (some tr) timeSpent key w).submissionDocs =
        w.submissionDocs ++ [buildSubmissionData q code tr timeSpent]) :=
  ⟨rfl, fun _ => rfl⟩

end CodingAssessment
